import Mathlib

/-!
Shallow embedding of `src/new-structure/identity-service/app/email_service.py`.

The module has two pieces of logic:

* `_smtp_config` resolves the ambient settings into SMTP transport
  credentials, returning an empty dict (modelled as `none`) when the
  selected provider is unrecognized or misses required fields;
* `send_password_reset_email` builds the password-reset message
  (plaintext and HTML bodies via Python f-strings followed by `.strip()`)
  and dispatches it through `aiosmtplib.send`, converting any raised
  exception into a `{success: False, error: str(exc)}` result.

External collaborators are modelled explicitly: the settings bag is a
record parameter (the Python module reads a process-wide `get_settings()`
singleton whose fields are listed in the spec, section 6; empty string
models an absent/falsy value, matching the Python truthiness tests
`not settings.x`), and the SMTP transport is a function parameter
`TransportCall → Except String Unit` (`Except.error e` models
`aiosmtplib.send` raising an exception whose `str` is `e`).  The result
of `send_password_reset_email` is paired with an `Option TransportCall`
recording the single transport invocation made, `none` when the
unconfigured short-circuit path was taken (so no message was built and
no network call was made).
-/

namespace EmailService

/-- Modelled from the spec: the application-wide settings loader
(`app/config.py` `get_settings()`, not part of the analysed sources) is an
opaque bag of named values; the fields are the configuration surface the
spec lists in section 6.  String fields use the empty string for an
absent value, mirroring Python truthiness. -/
structure Settings where
  email_provider : String
  gmail_user : String
  gmail_app_password : String
  sendgrid_user : String
  sendgrid_api_key : String
  resend_api_key : String
  smtp_host : String
  smtp_port : Nat
  smtp_user : String
  smtp_password : String
  smtp_secure : Bool
  email_from : String
  email_from_name : String
  app_name : String
  deriving Repr, DecidableEq

/-- The dict returned by `_smtp_config` on the configured path.  The
`secure` key is stored only by the generic `smtp` branch of the source
(line 51); the other branches return dicts without it, hence
`secure : Option Bool`, and the dispatch reads it with
`config.get("secure", False)`, i.e. `Option.getD · false`. -/
structure ProviderConfig where
  host : String
  port : Nat
  user : String
  password : String
  secure : Option Bool
  deriving Repr, DecidableEq

/-- `_smtp_config` from `email_service.py` lines 14-53: the empty dict
result is `none`. -/
def _smtp_config (settings : Settings) : Option ProviderConfig :=
  if settings.email_provider = "gmail" then
    if settings.gmail_user = "" ∨ settings.gmail_app_password = "" then none
    else some { host := "smtp.gmail.com", port := 587,
                user := settings.gmail_user,
                password := settings.gmail_app_password, secure := none }
  else if settings.email_provider = "sendgrid" then
    if settings.sendgrid_api_key = "" then none
    else some { host := "smtp.sendgrid.net", port := 587,
                user := if settings.sendgrid_user = "" then "apikey"
                        else settings.sendgrid_user,
                password := settings.sendgrid_api_key, secure := none }
  else if settings.email_provider = "resend" then
    if settings.resend_api_key = "" then none
    else some { host := "smtp.resend.com", port := 587, user := "resend",
                password := settings.resend_api_key, secure := none }
  else if settings.email_provider = "smtp" then
    if settings.smtp_host = "" ∨ settings.smtp_user = "" ∨ settings.smtp_password = "" then none
    else some { host := settings.smtp_host, port := settings.smtp_port,
                user := settings.smtp_user,
                password := settings.smtp_password,
                secure := some settings.smtp_secure }
  else none

/-- Python string `or`: `a or b` evaluates to `b` when `a` is the empty
(falsy) string and to `a` otherwise. -/
def pyOr (a b : String) : String := if a = "" then b else a

/-- Python whitespace as recognized by `str.strip()` (the template edges
only ever carry ASCII whitespace). -/
def isPySpace (c : Char) : Bool :=
  c == ' ' || c == '\t' || c == '\n' || c == '\r' || c == '\x0B' || c == '\x0C'

/-- Python `str.strip()`: drop leading and trailing whitespace. -/
def pyStrip (s : String) : String :=
  String.mk (((s.data.dropWhile isPySpace).reverse.dropWhile isPySpace).reverse)

/-- The HTML body f-string of `send_password_reset_email` (lines 68-82),
including the trailing `.strip()`. -/
def html_body (settings : Settings) (new_password recipient_name : String) : String :=
  pyStrip
    ("\n<!DOCTYPE html>\n<html>\n<head>\n  <meta charset=\"utf-8\">\n</head>\n<body>\n  <p>Hello "
      ++ pyOr recipient_name "User"
      ++ ",</p>\n  <p>You have requested to reset your password. Your new temporary password is:</p>\n  <p><strong>"
      ++ new_password
      ++ "</strong></p>\n  <p>For security reasons, you will be required to change this password immediately after logging in.</p>\n  <p>This is an automated email from "
      ++ settings.app_name
      ++ ".</p>\n</body>\n</html>\n")

/-- The plaintext body f-string of `send_password_reset_email`
(lines 84-96), including the trailing `.strip()`. -/
def text_body (settings : Settings) (new_password recipient_name : String) : String :=
  pyStrip
    ("\nPassword Reset - "
      ++ settings.app_name
      ++ "\n\nHello "
      ++ pyOr recipient_name "User"
      ++ ",\n\nYou have requested to reset your password for your account. Your new temporary password is:\n\n"
      ++ new_password
      ++ "\n\nIMPORTANT: For security reasons, you will be required to change this password immediately after logging in.\n\nThis is an automated email. Please do not reply to this message.\n")

/-- The outbound `EmailMessage` (lines 98-103): subject, From and To
headers, plaintext content and the HTML alternative. -/
structure EmailMessage where
  subject : String
  fromHeader : String
  toAddr : String
  textBody : String
  htmlBody : String
  deriving Repr, DecidableEq

/-- One invocation of the SMTP transport capability, with the arguments
`aiosmtplib.send` is called with (lines 106-114). -/
structure TransportCall where
  message : EmailMessage
  hostname : String
  port : Nat
  username : String
  password : String
  start_tls : Bool
  use_tls : Bool
  deriving Repr, DecidableEq

/-- The value returned by `send_password_reset_email`: `success` plus an
optional `error` string (absent on the success path, line 115). -/
structure SendResult where
  success : Bool
  error : Option String
  deriving Repr, DecidableEq

/-- `send_password_reset_email` (lines 56-118).  `transport` models
`aiosmtplib.send`; the second component of the result records the
transport call made (`none` on the unconfigured short-circuit path, where
the source builds no message and performs no network call).  The Lean
function is total: every exception of the transport is converted into a
result value, which embeds the guarantee that nothing propagates past
this boundary. -/
def send_password_reset_email (transport : TransportCall → Except String Unit)
    (settings : Settings) (to_email new_password recipient_name : String) :
    SendResult × Option TransportCall :=
  match _smtp_config settings with
  | none =>
      ({ success := false,
         error := some "Email service not configured. Please contact administrator." },
       none)
  | some config =>
      let from_email := pyOr settings.email_from (pyOr settings.gmail_user "noreply@sportsevent.com")
      let from_name := settings.email_from_name
      let message : EmailMessage :=
        { subject := "Password Reset - Sports Event Management"
          fromHeader := from_name ++ " <" ++ from_email ++ ">"
          toAddr := to_email
          textBody := text_body settings new_password recipient_name
          htmlBody := html_body settings new_password recipient_name }
      let call : TransportCall :=
        { message := message
          hostname := config.host
          port := config.port
          username := config.user
          password := config.password
          start_tls := !(config.secure.getD false)
          use_tls := config.secure.getD false }
      match transport call with
      | Except.ok _ => ({ success := true, error := none }, some call)
      | Except.error exc => ({ success := false, error := some exc }, some call)

/-! ### Concrete settings fixtures used by witnesses and counterexamples -/

/-- A settings bag with every value absent and an unrecognized provider. -/
def noSettings : Settings :=
  { email_provider := "console", gmail_user := "", gmail_app_password := ""
    sendgrid_user := "", sendgrid_api_key := "", resend_api_key := ""
    smtp_host := "", smtp_port := 0, smtp_user := "", smtp_password := ""
    smtp_secure := false, email_from := "", email_from_name := "", app_name := "" }

/-- A fully configured `gmail` provider. -/
def gmailSettings : Settings :=
  { noSettings with
    email_provider := "gmail", gmail_user := "team@gmail.com"
    gmail_app_password := "app-pass", email_from_name := "Sports Team"
    app_name := "Annual Sports Event" }

/-- A fully configured `sendgrid` provider whose settings also carry a
non-empty `gmail_user` but no `email_from`. -/
def sendgridSettings : Settings :=
  { noSettings with
    email_provider := "sendgrid", sendgrid_api_key := "sg-key"
    gmail_user := "team@gmail.com", email_from_name := "Sports Team"
    app_name := "Annual Sports Event" }

/-- A fully configured `resend` provider. -/
def resendSettings : Settings :=
  { noSettings with
    email_provider := "resend", resend_api_key := "re-key"
    app_name := "Annual Sports Event" }

/-- A fully configured generic `smtp` provider with `smtp_secure = true`. -/
def smtpSecureSettings : Settings :=
  { noSettings with
    email_provider := "smtp", smtp_host := "relay.example.com"
    smtp_port := 2525, smtp_user := "relay-user", smtp_password := "relay-pass"
    smtp_secure := true, app_name := "Annual Sports Event" }

/-- A transport that always succeeds. -/
def okTransport : TransportCall → Except String Unit := fun _ => Except.ok ()

/-- A transport that always fails, with `exc` as the stringified reason. -/
def failTransport (exc : String) : TransportCall → Except String Unit :=
  fun _ => Except.error exc

/-! ### C1 : unconfigured short circuit -/

/-- C1: whenever `_smtp_config` resolves to the not-configured sentinel,
`send_password_reset_email` returns exactly
`{success: false, error: "Email service not configured. Please contact administrator."}`,
builds no message and makes no transport call (the recorded transport
invocation is `none`), for every transport, recipient, secret and name. -/
theorem unconfigured_short_circuit (transport : TransportCall → Except String Unit)
    (settings : Settings) (to_email new_password recipient_name : String)
    (h : _smtp_config settings = none) :
    send_password_reset_email transport settings to_email new_password recipient_name =
      ({ success := false,
         error := some "Email service not configured. Please contact administrator." },
       none) := by
  unfold send_password_reset_email
  rw [h]

/-- Witness for C1 at a concrete unconfigured settings bag. -/
theorem unconfigured_short_circuit_witness :
    _smtp_config noSettings = none ∧
    send_password_reset_email okTransport noSettings "a@b.example" "npw-123" "User" =
      ({ success := false,
         error := some "Email service not configured. Please contact administrator." },
       none) :=
  ⟨rfl, unconfigured_short_circuit okTransport noSettings "a@b.example" "npw-123" "User" rfl⟩

/-! ### C2 : transport failures are contained -/

/-- C2: for every configured provider and every failure the transport
raises, `send_password_reset_email` returns
`{success: false, error: <the stringified failure reason>}`.  The Lean
embedding of `send_password_reset_email` is a total function into
`SendResult × Option TransportCall`, so no exception propagates past it:
the `except` handler of lines 116-118 converts every raised exception
into the result value. -/
theorem transport_failure_contained (settings : Settings) (c : ProviderConfig)
    (to_email new_password recipient_name exc : String)
    (h : _smtp_config settings = some c) :
    (send_password_reset_email (failTransport exc) settings to_email new_password
        recipient_name).fst =
      { success := false, error := some exc } := by
  unfold send_password_reset_email
  rw [h]
  rfl

/-- Witness for C2 at a concrete configured gmail provider and a concrete
failure reason. -/
theorem transport_failure_contained_witness :
    (send_password_reset_email (failTransport "connection refused") gmailSettings
        "a@b.example" "npw-123" "User").fst =
      { success := false, error := some "connection refused" } :=
  transport_failure_contained gmailSettings
    { host := "smtp.gmail.com", port := 587, user := "team@gmail.com"
      password := "app-pass", secure := none }
    "a@b.example" "npw-123" "User" "connection refused" rfl

/-! ### C3 : shape of the returned result -/

/-- The result invariant exactly as the claim states it: success with no
error field, or failure with a non-empty error string. -/
def sendResultInvariant (r : SendResult) : Prop :=
  (r.success = true ∧ r.error = none) ∨
  (r.success = false ∧ ∃ msg, r.error = some msg ∧ msg ≠ "")

/-- Counterexample to C3: a transport failure whose stringified reason is
the empty string (Python `str(exc)` can be empty, e.g. `Exception()`)
produces `{success: false, error: ""}`, whose error string is empty, so
the claimed invariant fails on this outcome. -/
theorem result_invariant_counterexample :
    ¬ sendResultInvariant
        (send_password_reset_email (failTransport "") gmailSettings
          "a@b.example" "npw-123" "User").fst := by
  have hr : (send_password_reset_email (failTransport "") gmailSettings
      "a@b.example" "npw-123" "User").fst = { success := false, error := some "" } := rfl
  rw [sendResultInvariant, hr]
  rintro (⟨hs, -⟩ | ⟨-, msg, hmsg, hne⟩)
  · exact Bool.noConfusion hs
  · exact hne (Option.some.inj hmsg).symm

/-- C3 as amended: every outcome of `send_password_reset_email` satisfies
exactly one of success `true` with no error field, or success `false`
with an error string present; the error is the fixed non-empty message on
the unconfigured path and the stringified failure reason — possibly the
empty string — on the transport-failure path. -/
theorem result_invariant_amended (transport : TransportCall → Except String Unit)
    (settings : Settings) (to_email new_password recipient_name : String) :
    ((send_password_reset_email transport settings to_email new_password
        recipient_name).fst.success = true ∧
      (send_password_reset_email transport settings to_email new_password
        recipient_name).fst.error = none) ∨
    ((send_password_reset_email transport settings to_email new_password
        recipient_name).fst.success = false ∧
      (send_password_reset_email transport settings to_email new_password
        recipient_name).fst.error.isSome = true) := by
  unfold send_password_reset_email
  cases _smtp_config settings with
  | none => exact Or.inr ⟨rfl, rfl⟩
  | some config =>
      simp only
      cases transport _ with
      | ok _ => exact Or.inl ⟨rfl, rfl⟩
      | error exc => exact Or.inr ⟨rfl, rfl⟩

/-! ### C4 : all-or-nothing configuration resolution -/

/-- The value `_smtp_config gmailSettings` resolves to. -/
def gmailConfig : ProviderConfig :=
  { host := "smtp.gmail.com", port := 587, user := "team@gmail.com"
    password := "app-pass", secure := none }

/-- A `ProviderConfig` is fully populated in the sense of C4 when its
string fields are non-empty and its `secure` field is present (`port`,
a machine integer, is always present in the record). -/
def fullyPopulated (c : ProviderConfig) : Prop :=
  c.host ≠ "" ∧ c.user ≠ "" ∧ c.password ≠ "" ∧ c.secure.isSome = true

/-- Counterexample to C4 as stated: for a fully configured gmail provider
the resolver returns a config dict without the `secure` key (only the
generic `smtp` branch stores it, line 51), so the returned config does
not have all of host, port, user, password, secure present. -/
theorem config_fully_populated_counterexample :
    ¬ (∀ s : Settings, _smtp_config s = none ∨
        ∃ c, _smtp_config s = some c ∧ fullyPopulated c) := by
  intro hclaim
  have hg : _smtp_config gmailSettings = some gmailConfig := rfl
  rcases hclaim gmailSettings with hnone | ⟨c, hc, hfull⟩
  · rw [hg] at hnone
    exact Option.noConfusion hnone
  · rw [hg] at hc
    cases Option.some.inj hc
    exact Bool.noConfusion hfull.2.2.2

/-- C4 as amended: the resolver returns either the not-configured
sentinel or a config whose host, user and password are all non-empty —
never a partially populated config — and whose `secure` field is present
exactly for the generic `smtp` variant (elsewhere it is absent and reads
as `false` at the use site). -/
theorem config_all_or_nothing (s : Settings) (c : ProviderConfig)
    (h : _smtp_config s = some c) :
    c.host ≠ "" ∧ c.user ≠ "" ∧ c.password ≠ "" ∧
    (c.secure.isSome = true ↔ s.email_provider = "smtp") := by
  unfold _smtp_config at h
  split at h
  · rename_i hp
    split at h
    · exact Option.noConfusion h
    · rename_i hcond
      push_neg at hcond
      cases Option.some.inj h
      refine ⟨by simp, hcond.1, hcond.2, by simp [hp]⟩
  · split at h
    · rename_i hp
      split at h
      · exact Option.noConfusion h
      · rename_i hcond
        cases Option.some.inj h
        refine ⟨by simp, ?_, hcond, by simp [hp]⟩
        split
        · simp
        · assumption
    · split at h
      · rename_i hp
        split at h
        · exact Option.noConfusion h
        · rename_i hcond
          cases Option.some.inj h
          exact ⟨by simp, by simp, hcond, by simp [hp]⟩
      · split at h
        · rename_i hp
          split at h
          · exact Option.noConfusion h
          · rename_i hcond
            push_neg at hcond
            cases Option.some.inj h
            exact ⟨hcond.1, hcond.2.1, hcond.2.2, by simp [hp]⟩
        · exact Option.noConfusion h

/-- Witness for the amended C4 at the concrete gmail fixture. -/
theorem config_all_or_nothing_witness :
    gmailConfig.host ≠ "" ∧ gmailConfig.user ≠ "" ∧ gmailConfig.password ≠ "" ∧
    (gmailConfig.secure.isSome = true ↔ gmailSettings.email_provider = "smtp") :=
  config_all_or_nothing gmailSettings gmailConfig rfl

/-! ### C5 : fixed host and port per provider variant -/

/-- C5: whenever the required fields of a recognized variant are
non-empty, the resolver returns a config carrying exactly the fixed
host/port of the table in section 4.1 of the spec: gmail
`smtp.gmail.com:587`, sendgrid `smtp.sendgrid.net:587`, resend
`smtp.resend.com:587`, and the configured `smtp_host`/`smtp_port` for the
generic `smtp` variant. -/
theorem resolver_fixed_host_port (s : Settings) :
    (s.email_provider = "gmail" → s.gmail_user ≠ "" → s.gmail_app_password ≠ "" →
      ∃ c, _smtp_config s = some c ∧ c.host = "smtp.gmail.com" ∧ c.port = 587) ∧
    (s.email_provider = "sendgrid" → s.sendgrid_api_key ≠ "" →
      ∃ c, _smtp_config s = some c ∧ c.host = "smtp.sendgrid.net" ∧ c.port = 587) ∧
    (s.email_provider = "resend" → s.resend_api_key ≠ "" →
      ∃ c, _smtp_config s = some c ∧ c.host = "smtp.resend.com" ∧ c.port = 587) ∧
    (s.email_provider = "smtp" → s.smtp_host ≠ "" → s.smtp_user ≠ "" →
      s.smtp_password ≠ "" →
      ∃ c, _smtp_config s = some c ∧ c.host = s.smtp_host ∧ c.port = s.smtp_port) := by
  refine ⟨fun hp h1 h2 => ?_, fun hp h1 => ?_, fun hp h1 => ?_,
    fun hp h1 h2 h3 => ?_⟩
  · simp [_smtp_config, hp, h1, h2]
  · simp [_smtp_config, hp, h1]
  · simp [_smtp_config, hp, h1]
  · simp [_smtp_config, hp, h1, h2, h3]

/-- Witness for C5: all four variants at concrete configured fixtures. -/
theorem resolver_fixed_host_port_witness :
    (∃ c, _smtp_config gmailSettings = some c ∧
      c.host = "smtp.gmail.com" ∧ c.port = 587) ∧
    (∃ c, _smtp_config sendgridSettings = some c ∧
      c.host = "smtp.sendgrid.net" ∧ c.port = 587) ∧
    (∃ c, _smtp_config resendSettings = some c ∧
      c.host = "smtp.resend.com" ∧ c.port = 587) ∧
    (∃ c, _smtp_config smtpSecureSettings = some c ∧
      c.host = "relay.example.com" ∧ c.port = 2525) :=
  ⟨(resolver_fixed_host_port gmailSettings).1 rfl (by decide) (by decide),
   (resolver_fixed_host_port sendgridSettings).2.1 rfl (by decide),
   (resolver_fixed_host_port resendSettings).2.2.1 rfl (by decide),
   (resolver_fixed_host_port smtpSecureSettings).2.2.2 rfl (by decide) (by decide)
     (by decide)⟩

/-! ### C6 : not-configured on missing fields or unknown provider -/

/-- C6: the resolver returns the not-configured sentinel — and, being a
total Lean function, never raises — whenever the provider is
unrecognized, or any required field of the recognized variant is empty
(gmail: `gmail_user`, `gmail_app_password`; sendgrid:
`sendgrid_api_key`; resend: `resend_api_key`; generic smtp: `smtp_host`,
`smtp_user`, `smtp_password`). -/
theorem resolver_not_configured (s : Settings) :
    (s.email_provider ≠ "gmail" → s.email_provider ≠ "sendgrid" →
      s.email_provider ≠ "resend" → s.email_provider ≠ "smtp" →
      _smtp_config s = none) ∧
    (s.email_provider = "gmail" →
      s.gmail_user = "" ∨ s.gmail_app_password = "" → _smtp_config s = none) ∧
    (s.email_provider = "sendgrid" → s.sendgrid_api_key = "" →
      _smtp_config s = none) ∧
    (s.email_provider = "resend" → s.resend_api_key = "" →
      _smtp_config s = none) ∧
    (s.email_provider = "smtp" →
      s.smtp_host = "" ∨ s.smtp_user = "" ∨ s.smtp_password = "" →
      _smtp_config s = none) := by
  refine ⟨fun h1 h2 h3 h4 => ?_, fun hp hcond => ?_, fun hp hcond => ?_,
    fun hp hcond => ?_, fun hp hcond => ?_⟩
  · simp [_smtp_config, h1, h2, h3, h4]
  · rcases hcond with h | h <;> simp [_smtp_config, hp, h]
  · simp [_smtp_config, hp, hcond]
  · simp [_smtp_config, hp, hcond]
  · rcases hcond with h | h | h <;> simp [_smtp_config, hp, h]

/-- A gmail provider whose app password is missing. -/
def gmailMissingPassword : Settings :=
  { gmailSettings with gmail_app_password := "" }

/-- A sendgrid provider whose API key is missing. -/
def sendgridMissingKey : Settings :=
  { noSettings with email_provider := "sendgrid" }

/-- A resend provider whose API key is missing. -/
def resendMissingKey : Settings :=
  { noSettings with email_provider := "resend" }

/-- A generic smtp provider whose host is missing. -/
def smtpMissingHost : Settings :=
  { smtpSecureSettings with smtp_host := "" }

/-- Witness for C6: the unrecognized provider and one missing required
field of each recognized variant, at concrete fixtures. -/
theorem resolver_not_configured_witness :
    _smtp_config noSettings = none ∧
    _smtp_config gmailMissingPassword = none ∧
    _smtp_config sendgridMissingKey = none ∧
    _smtp_config resendMissingKey = none ∧
    _smtp_config smtpMissingHost = none :=
  ⟨(resolver_not_configured noSettings).1 (by decide) (by decide) (by decide)
      (by decide),
   (resolver_not_configured gmailMissingPassword).2.1 rfl (Or.inr rfl),
   (resolver_not_configured sendgridMissingKey).2.2.1 rfl rfl,
   (resolver_not_configured resendMissingKey).2.2.2.1 rfl rfl,
   (resolver_not_configured smtpMissingHost).2.2.2.2 rfl (Or.inl rfl)⟩

/-! ### Shared helper: the transport call made on the configured path -/

/-- On the configured path, `send_password_reset_email` records exactly
one transport call, built from the resolved config and the composed
message, regardless of the transport outcome. -/
theorem send_transport_call_eq (transport : TransportCall → Except String Unit)
    (settings : Settings) (c : ProviderConfig) (to_email new_password recipient_name : String)
    (hc : _smtp_config settings = some c) :
    (send_password_reset_email transport settings to_email new_password
        recipient_name).snd =
      some { message :=
               { subject := "Password Reset - Sports Event Management"
                 fromHeader := settings.email_from_name ++ " <" ++
                   pyOr settings.email_from
                     (pyOr settings.gmail_user "noreply@sportsevent.com") ++ ">"
                 toAddr := to_email
                 textBody := text_body settings new_password recipient_name
                 htmlBody := html_body settings new_password recipient_name }
             hostname := c.host
             port := c.port
             username := c.user
             password := c.password
             start_tls := !(c.secure.getD false)
             use_tls := c.secure.getD false } := by
  unfold send_password_reset_email
  rw [hc]
  dsimp only
  split <;> rfl

/-- On the generic `smtp` path the resolved config's `secure` field is
exactly the configured `smtp_secure` flag. -/
theorem smtp_config_secure (s : Settings) (c : ProviderConfig)
    (hp : s.email_provider = "smtp") (hc : _smtp_config s = some c) :
    c.secure = some s.smtp_secure := by
  unfold _smtp_config at hc
  rw [hp] at hc
  simp at hc
  cases hc.2
  rfl

/-! ### C7 : TLS mode selection -/

/-- C7: the transport is invoked with a mutually exclusive TLS-mode flag
pair derived from the resolved config: `secure = true` selects
TLS-on-connect (`use_tls` true, `start_tls` false) and `secure` false or
absent selects STARTTLS (`start_tls` true, `use_tls` false); for the
generic `smtp` variant the flags follow `smtp_secure` directly. -/
theorem tls_mode_selection (transport : TransportCall → Except String Unit)
    (s : Settings) (to_email new_password recipient_name : String)
    (c : ProviderConfig) (call : TransportCall)
    (hc : _smtp_config s = some c)
    (hcall : (send_password_reset_email transport s to_email new_password
        recipient_name).snd = some call) :
    call.use_tls = c.secure.getD false ∧ call.start_tls = !(c.secure.getD false) ∧
    (s.email_provider = "smtp" →
      call.use_tls = s.smtp_secure ∧ call.start_tls = !s.smtp_secure) := by
  rw [send_transport_call_eq transport s c to_email new_password recipient_name hc]
    at hcall
  cases Option.some.inj hcall
  refine ⟨rfl, rfl, fun hp => ?_⟩
  rw [smtp_config_secure s c hp hc]
  exact ⟨rfl, rfl⟩

/-- The transport call recorded for the secure generic smtp fixture. -/
def smtpWitnessCall : TransportCall :=
  (send_password_reset_email okTransport smtpSecureSettings "a@b.example"
      "npw-123" "User").snd.getD
    { message := { subject := "", fromHeader := "", toAddr := ""
                   textBody := "", htmlBody := "" }
      hostname := "", port := 0, username := "", password := ""
      start_tls := false, use_tls := false }

/-- The config the secure generic smtp fixture resolves to. -/
def smtpSecureConfig : ProviderConfig :=
  { host := "relay.example.com", port := 2525, user := "relay-user"
    password := "relay-pass", secure := some true }

/-- Witness for C7: with `smtp_secure = true` the recorded call uses
TLS-on-connect and not STARTTLS. -/
theorem tls_mode_selection_witness :
    smtpWitnessCall.use_tls = true ∧ smtpWitnessCall.start_tls = false :=
  have h := tls_mode_selection okTransport smtpSecureSettings "a@b.example"
    "npw-123" "User" smtpSecureConfig smtpWitnessCall rfl rfl
  ⟨h.1, h.2.1⟩

/-! ### String lemmas: what `.strip()` leaves of the two templates

The two f-string templates start and end with a fixed newline, so
`.strip()` removes exactly those two characters.  The lemmas below prove
this symbolically, for every substituted value. -/

/-- Strings with equal character data are equal. -/
theorem strOfData {a b : String} (h : a.data = b.data) : a = b :=
  congrArg String.mk h

theorem strData_append (a b : String) : (a ++ b).data = a.data ++ b.data := rfl

theorem strAppend_assoc (a b c : String) : a ++ b ++ c = a ++ (b ++ c) :=
  strOfData (by simp [strData_append])

theorem pyStrip_data (s : String) :
    (pyStrip s).data =
      ((s.data.dropWhile isPySpace).reverse.dropWhile isPySpace).reverse := rfl

/-- `dropWhile` over an append whose first part does not vanish. -/
theorem dropWhile_append_of_ne_nil (p : Char → Bool) (l1 l2 m : List Char)
    (h : l1.dropWhile p = m) (hm : m ≠ []) :
    (l1 ++ l2).dropWhile p = m ++ l2 := by
  induction l1 with
  | nil => exact absurd h.symm hm
  | cons a t ih =>
      rw [List.cons_append, List.dropWhile_cons]
      rw [List.dropWhile_cons] at h
      by_cases hpa : p a = true
      · rw [if_pos hpa] at h ⊢
        exact ih h
      · rw [if_neg hpa] at h ⊢
        cases h
        rfl

/-- Stripping trailing whitespace of `l ++ d` when `d` reduces to the
whitespace-free-tailed `e`. -/
theorem stripTrailing_append (l d e : List Char)
    (h : d.reverse.dropWhile isPySpace = e.reverse) (he : e ≠ []) :
    ((l ++ d).reverse.dropWhile isPySpace).reverse = l ++ e := by
  have he' : e.reverse ≠ [] := fun h0 => he (by simpa using h0)
  rw [List.reverse_append,
    dropWhile_append_of_ne_nil isPySpace d.reverse l.reverse e.reverse h he',
    List.reverse_append, List.reverse_reverse, List.reverse_reverse]

/-- The fixed pieces of the plaintext template, split at the three
interpolation points, plus the stripped forms of the edge pieces. -/
def textT1 : String := "\nPassword Reset - "

def textT2 : String := "\n\nHello "

def textT3 : String := ",\n\nYou have requested to reset your password for your account. Your new temporary password is:\n\n"

def textT4 : String := "\n\nIMPORTANT: For security reasons, you will be required to change this password immediately after logging in.\n\nThis is an automated email. Please do not reply to this message.\n"

def textT1s : String := "Password Reset - "

def textT4s : String := "\n\nIMPORTANT: For security reasons, you will be required to change this password immediately after logging in.\n\nThis is an automated email. Please do not reply to this message."

/-- `text_body` written with the named template pieces. -/
theorem text_body_chunks (s : Settings) (new_password recipient_name : String) :
    text_body s new_password recipient_name =
      pyStrip (textT1 ++ s.app_name ++ textT2 ++ pyOr recipient_name "User" ++
        textT3 ++ new_password ++ textT4) := rfl

/-- The plaintext body after `.strip()`. -/
def textCore (app nm pw : String) : String :=
  textT1s ++ app ++ textT2 ++ nm ++ textT3 ++ pw ++ textT4s

/-- The plaintext body equals the stripped template with the values
substituted verbatim. -/
theorem text_body_eq (s : Settings) (new_password recipient_name : String) :
    text_body s new_password recipient_name =
      textCore s.app_name (pyOr recipient_name "User") new_password := by
  rw [text_body_chunks]
  refine strOfData ?_
  rw [pyStrip_data]
  simp only [strData_append, List.append_assoc]
  rw [dropWhile_append_of_ne_nil isPySpace textT1.data _ textT1s.data rfl
    (by decide)]
  simp only [← List.append_assoc]
  rw [stripTrailing_append _ textT4.data textT4s.data rfl (by decide)]
  simp only [textCore, strData_append, ← List.append_assoc]

/-- The fixed pieces of the HTML template, split at the three
interpolation points, plus the stripped forms of the edge pieces. -/
def htmlH1 : String := "\n<!DOCTYPE html>\n<html>\n<head>\n  <meta charset=\"utf-8\">\n</head>\n<body>\n  <p>Hello "

def htmlH2 : String := ",</p>\n  <p>You have requested to reset your password. Your new temporary password is:</p>\n  <p><strong>"

def htmlH3 : String := "</strong></p>\n  <p>For security reasons, you will be required to change this password immediately after logging in.</p>\n  <p>This is an automated email from "

def htmlH4 : String := ".</p>\n</body>\n</html>\n"

def htmlH1s : String := "<!DOCTYPE html>\n<html>\n<head>\n  <meta charset=\"utf-8\">\n</head>\n<body>\n  <p>Hello "

def htmlH4s : String := ".</p>\n</body>\n</html>"

/-- `html_body` written with the named template pieces. -/
theorem html_body_chunks (s : Settings) (new_password recipient_name : String) :
    html_body s new_password recipient_name =
      pyStrip (htmlH1 ++ pyOr recipient_name "User" ++ htmlH2 ++ new_password ++
        htmlH3 ++ s.app_name ++ htmlH4) := rfl

/-- The HTML body after `.strip()`. -/
def htmlCore (app nm pw : String) : String :=
  htmlH1s ++ nm ++ htmlH2 ++ pw ++ htmlH3 ++ app ++ htmlH4s

/-- The HTML body equals the stripped template with the values
substituted verbatim. -/
theorem html_body_eq (s : Settings) (new_password recipient_name : String) :
    html_body s new_password recipient_name =
      htmlCore s.app_name (pyOr recipient_name "User") new_password := by
  rw [html_body_chunks]
  refine strOfData ?_
  rw [pyStrip_data]
  simp only [strData_append, List.append_assoc]
  rw [dropWhile_append_of_ne_nil isPySpace htmlH1.data _ htmlH1s.data rfl
    (by decide)]
  simp only [← List.append_assoc]
  rw [stripTrailing_append _ htmlH4.data htmlH4s.data rfl (by decide)]
  simp only [htmlCore, strData_append, ← List.append_assoc]

/-! ### C8 : the secret value appears verbatim in both bodies -/

/-- C8: both the plaintext and the HTML body of the message handed to the
transport contain the secret `new_password` as a literal, unescaped
substring. -/
theorem secret_in_both_bodies (transport : TransportCall → Except String Unit)
    (s : Settings) (to_email new_password recipient_name : String)
    (c : ProviderConfig) (call : TransportCall)
    (hc : _smtp_config s = some c)
    (hcall : (send_password_reset_email transport s to_email new_password
        recipient_name).snd = some call) :
    (∃ a b, call.message.textBody = a ++ new_password ++ b) ∧
    (∃ a b, call.message.htmlBody = a ++ new_password ++ b) := by
  rw [send_transport_call_eq transport s c to_email new_password recipient_name hc]
    at hcall
  cases Option.some.inj hcall
  refine ⟨⟨textT1s ++ s.app_name ++ textT2 ++ pyOr recipient_name "User" ++ textT3,
      textT4s, ?_⟩,
    ⟨htmlH1s ++ pyOr recipient_name "User" ++ htmlH2,
      htmlH3 ++ s.app_name ++ htmlH4s, ?_⟩⟩
  · rw [text_body_eq]
    rfl
  · rw [html_body_eq]
    simp only [htmlCore, strAppend_assoc]

/-- Witness for C8: both bodies of the recorded smtp-fixture call contain
the concrete secret. -/
theorem secret_in_both_bodies_witness :
    (∃ a b, smtpWitnessCall.message.textBody = a ++ "npw-123" ++ b) ∧
    (∃ a b, smtpWitnessCall.message.htmlBody = a ++ "npw-123" ++ b) :=
  secret_in_both_bodies okTransport smtpSecureSettings "a@b.example" "npw-123"
    "User" smtpSecureConfig smtpWitnessCall rfl rfl

/-! ### C9 : default greeting -/

/-- C9: when the recipient name is omitted (the Python default `"User"`)
or passed as the empty string, both rendered bodies greet `User`: they
contain `Hello User,` as a literal substring. -/
theorem default_greeting (transport : TransportCall → Except String Unit)
    (s : Settings) (to_email new_password recipient_name : String)
    (c : ProviderConfig) (call : TransportCall)
    (hc : _smtp_config s = some c)
    (hcall : (send_password_reset_email transport s to_email new_password
        recipient_name).snd = some call)
    (hnm : recipient_name = "User" ∨ recipient_name = "") :
    (∃ a b, call.message.textBody = a ++ "Hello User," ++ b) ∧
    (∃ a b, call.message.htmlBody = a ++ "Hello User," ++ b) := by
  rw [send_transport_call_eq transport s c to_email new_password recipient_name hc]
    at hcall
  cases Option.some.inj hcall
  have hUser : pyOr recipient_name "User" = "User" := by
    rcases hnm with h | h <;> simp [pyOr, h]
  refine ⟨⟨textT1s ++ s.app_name ++ "\n\n",
      "\n\nYou have requested to reset your password for your account. Your new temporary password is:\n\n"
        ++ new_password ++ textT4s, ?_⟩,
    ⟨"<!DOCTYPE html>\n<html>\n<head>\n  <meta charset=\"utf-8\">\n</head>\n<body>\n  <p>",
      "</p>\n  <p>You have requested to reset your password. Your new temporary password is:</p>\n  <p><strong>"
        ++ new_password ++ htmlH3 ++ s.app_name ++ htmlH4s, ?_⟩⟩
  · rw [text_body_eq, hUser]
    refine strOfData ?_
    simp only [textCore, strData_append, List.append_assoc]
    rfl
  · rw [html_body_eq, hUser]
    refine strOfData ?_
    simp only [htmlCore, strData_append, List.append_assoc]
    rfl

/-- Witness for C9 at the smtp fixture, where the recipient name is the
omitted-argument default `"User"`. -/
theorem default_greeting_witness :
    (∃ a b, smtpWitnessCall.message.textBody = a ++ "Hello User," ++ b) ∧
    (∃ a b, smtpWitnessCall.message.htmlBody = a ++ "Hello User," ++ b) :=
  default_greeting okTransport smtpSecureSettings "a@b.example" "npw-123" "User"
    smtpSecureConfig smtpWitnessCall rfl rfl (Or.inl rfl)

/-! ### C10 : From-address fallback chain -/

/-- C10: for every configured provider, when `email_from` is empty the
From address of the outbound message falls back to `gmail_user` when that
is non-empty, and otherwise to the literal placeholder
`noreply@sportsevent.com` (the header is `email_from_name <address>`,
line 100). -/
theorem from_address_fallback (transport : TransportCall → Except String Unit)
    (s : Settings) (to_email new_password recipient_name : String)
    (c : ProviderConfig) (call : TransportCall)
    (hc : _smtp_config s = some c)
    (hcall : (send_password_reset_email transport s to_email new_password
        recipient_name).snd = some call)
    (hfrom : s.email_from = "") :
    (s.gmail_user ≠ "" →
      call.message.fromHeader = s.email_from_name ++ " <" ++ s.gmail_user ++ ">") ∧
    (s.gmail_user = "" →
      call.message.fromHeader =
        s.email_from_name ++ " <" ++ "noreply@sportsevent.com" ++ ">") := by
  rw [send_transport_call_eq transport s c to_email new_password recipient_name hc]
    at hcall
  cases Option.some.inj hcall
  constructor
  · intro hg
    simp [pyOr, hfrom, hg]
  · intro hg
    simp [pyOr, hfrom, hg]

/-- A transport call with every field empty, used as `Option.getD`
default when naming a recorded call. -/
def emptyCall : TransportCall :=
  { message := { subject := "", fromHeader := "", toAddr := ""
                 textBody := "", htmlBody := "" }
    hostname := "", port := 0, username := "", password := ""
    start_tls := false, use_tls := false }

/-- The config the sendgrid fixture resolves to. -/
def sendgridConfig : ProviderConfig :=
  { host := "smtp.sendgrid.net", port := 587, user := "apikey"
    password := "sg-key", secure := none }

/-- The transport call recorded for the sendgrid fixture. -/
def sendgridWitnessCall : TransportCall :=
  (send_password_reset_email okTransport sendgridSettings "a@b.example"
      "npw-123" "User").snd.getD emptyCall

/-- Witness for C10: a configured sendgrid (not gmail) provider with
empty `email_from` and non-empty `gmail_user` uses the `gmail_user`
fallback in the From header. -/
theorem from_address_fallback_witness :
    sendgridWitnessCall.message.fromHeader = "Sports Team <team@gmail.com>" :=
  (from_address_fallback okTransport sendgridSettings "a@b.example" "npw-123"
      "User" sendgridConfig sendgridWitnessCall rfl rfl rfl).1 (by decide)

end EmailService
